import Mathlib

/-!
# Verification of the huddle-ai meeting pipeline and query router

Shallow embedding of `src/agent.py` (LangGraph meeting-processing pipeline),
`src/assistant/chain.py` (question router) and the helper
`_extract_meeting_date` regex cascade.  External collaborators (the language
model "Gateway", the vector-store Retriever and the notification dispatcher)
are modelled as oracles: each call site that could fail is an `Except`-valued
outcome supplied by the oracle, matching the spec's collaborator contracts.
-/

namespace HuddleAI

/-! ## Data model (src/models.py) -/

/-- An action item as returned by the Gateway extraction call
(`ActionItem` pydantic model, no `id` field yet). -/
structure ExtractedItem where
  description : String
  assignee : Option String
  assignee_email : Option String
  priority : String
  deadline : Option String
  context : Option String
  deriving DecidableEq, Repr

/-- An action-item dict as stored in the pipeline state: `model_dump()` of an
`ExtractedItem` plus the `"id"` key added by `extract_action_items`.
`model_dump()` emits every field, so every key below is present in the dict
(an `Option` value `none` models the key being present with value `None`). -/
structure ActionItem where
  description : String
  assignee : Option String
  assignee_email : Option String
  priority : String
  deadline : Option String
  context : Option String
  id : String
  deriving DecidableEq, Repr

/-- `MeetingSummary` structured output. -/
structure MeetingSummary where
  summary : String
  key_topics : List String
  participants : List String
  deriving DecidableEq, Repr

/-- `AssigneeMatch` structured output. -/
structure AssigneeMatch where
  name : String
  email : String
  reasoning : String
  deriving DecidableEq, Repr

/-- `DeadlineEntry`: a 0-based index (a Python `int`, possibly negative)
paired with a resolved deadline string. -/
structure DeadlineEntry where
  index : Int
  deadline : String
  deriving DecidableEq, Repr

/-- The LangGraph `MeetingState` TypedDict.  All keys are set by
`_initial_state`, so every field is present. -/
structure MeetingState where
  transcript : String
  transcript_source : String
  summary : String
  key_topics : List String
  participants : List String
  action_items : List ActionItem
  emails_sent : List String
  errors : List String
  processing_step : String
  deriving DecidableEq, Repr

/-- A partial state update returned by a graph node.  LangGraph merges it into
the state: a field present in the dict replaces the old value, except
`errors`, which is `Annotated[list[str], operator.add]` and therefore
appended. -/
structure StateUpdate where
  summary : Option String := none
  key_topics : Option (List String) := none
  participants : Option (List String) := none
  action_items : Option (List ActionItem) := none
  emails_sent : Option (List String) := none
  errors : List String := []
  processing_step : Option String := none
  deriving DecidableEq, Repr

/-- LangGraph state merge: replace fields that the update sets, append
`errors` (`operator.add`), keep everything else.  `transcript` and
`transcript_source` are never set by any node. -/
def applyUpdate (s : MeetingState) (u : StateUpdate) : MeetingState :=
  { transcript := s.transcript
    transcript_source := s.transcript_source
    summary := u.summary.getD s.summary
    key_topics := u.key_topics.getD s.key_topics
    participants := u.participants.getD s.participants
    action_items := u.action_items.getD s.action_items
    emails_sent := u.emails_sent.getD s.emails_sent
    errors := s.errors ++ u.errors
    processing_step := u.processing_step.getD s.processing_step }

/-! ## External collaborators as oracles

Each fallible external call is an `Except String` outcome: `.error e` models
the Python call raising an exception rendered as `e` by `f"... {e}"`.
Constructing the client handle (`_get_llm`, a local `ChatOpenAI(...)`
constructor) performs no network call and is modelled as infallible, per the
spec's Gateway contract in which only `invoke` fails. -/

/-- Oracle outcomes for the Gateway/Retriever calls made by the pipeline.
`assignResult i item` is the outcome of the whole per-item `try` body of
`assign_owners` (RAG lookup + structured LLM call) for the `i`-th item;
`deadlineResult meetingDate` is the outcome of the deadline-resolution call,
which receives the extracted meeting date. -/
structure Gateway where
  summarizeResult : Except String MeetingSummary
  extractResult : Except String (List ExtractedItem)
  assignResult : Nat → ActionItem → Except String AssigneeMatch
  deadlineResult : String → Except String (List DeadlineEntry)

/-- Modelled from the spec: `src/tools.py` (`send_action_item_email`, the
Notification Dispatcher) is not part of the provided sources.  Per the spec's
contract — `send(recipientEmail, recipientName, actionItem, meetingSummary)`
returns a record whose `status` is `sent` or `failed` — it is modelled as an
opaque total function from the action item and the meeting summary to the
status string. -/
def Dispatcher : Type := ActionItem → String → String

/-! ## Meeting-date extraction (`_extract_meeting_date`, agent.py)

The three Python regexes are embedded as anchored matchers over `List Char`
plus a left-to-right position scan (`re.search` semantics).  Greedy
quantifiers need no general backtracking here:
* `\w+` before a literal space: a space is not a word character, so the
  maximal word run is the only candidate;
* `\s*` before `\d` or `\w`: a digit/word char is not whitespace, so the
  maximal space run is the only candidate;
* `,?`: if the next char is `,` the comma branch is forced (a comma is
  neither whitespace nor a digit, so the empty alternative fails);
* `\d{1,2}`: both lengths are tried, longest first.
The character classes are modelled over their ASCII fragments, which is
faithful for the claims at hand. -/

/-- Python `\w` (ASCII fragment): letter, digit or underscore. -/
def isWordChar (c : Char) : Bool := c.isAlpha || c.isDigit || c == '_'

/-- Python `\s` (ASCII fragment). -/
def isSpaceChar (c : Char) : Bool :=
  c == ' ' || c == '\t' || c == '\n' || c == '\r' || c == '\x0b' || c == '\x0c'

/-- `\d{4}`: four digits (a longer digit run still matches its first four). -/
def matchYear4 : List Char → Option (List Char)
  | a :: b :: c :: d :: _ =>
    if a.isDigit && b.isDigit && c.isDigit && d.isDigit then some [a, b, c, d]
    else none
  | _ => none

/-- `,?\s*\d{4}`.  If the input starts with `,` the comma branch is forced:
without consuming the comma, `\s*` matches nothing (a comma is not
whitespace) and `\d{4}` fails on the comma. -/
def matchSepYear (cs : List Char) : Option (List Char) :=
  match cs with
  | ',' :: rest =>
    (matchYear4 (rest.drop (rest.takeWhile isSpaceChar).length)).map
      (fun y => ',' :: (rest.takeWhile isSpaceChar ++ y))
  | _ =>
    (matchYear4 (cs.drop (cs.takeWhile isSpaceChar).length)).map
      (fun y => cs.takeWhile isSpaceChar ++ y)

/-- `\d{1,2},?\s*\d{4}`: greedy day, two digits tried before one. -/
def matchDayTail (cs : List Char) : Option (List Char) :=
  match cs with
  | a :: b :: rest =>
    if a.isDigit then
      if b.isDigit then
        match matchSepYear rest with
        | some t => some (a :: b :: t)
        | none => (matchSepYear (b :: rest)).map (fun t => a :: t)
      else (matchSepYear (b :: rest)).map (fun t => a :: t)
    else none
  | [a] => if a.isDigit then (matchSepYear []).map (fun t => a :: t) else none
  | [] => none

/-- The capture group `(\w+ \d{1,2},?\s*\d{4})` anchored at the start of
`cs` (this is both the whole of pattern 3 and the group of pattern 1). -/
def matchP3At (cs : List Char) : Option (List Char) :=
  if (cs.takeWhile isWordChar).isEmpty then none
  else
    match cs.drop (cs.takeWhile isWordChar).length with
    | ' ' :: rest =>
      (matchDayTail rest).map (fun t => cs.takeWhile isWordChar ++ (' ' :: t))
    | _ => none

/-- Pattern 1, `Date:\s*(\w+ \d{1,2},?\s*\d{4})`, anchored; returns the
capture group. -/
def matchP1At (cs : List Char) : Option (List Char) :=
  match cs with
  | 'D' :: 'a' :: 't' :: 'e' :: ':' :: rest =>
    matchP3At (rest.drop (rest.takeWhile isSpaceChar).length)
  | _ => none

/-- `(\d{4}-\d{2}-\d{2})` anchored. -/
def matchISOAt : List Char → Option (List Char)
  | a :: b :: c :: d :: '-' :: e :: f :: '-' :: g :: h :: _ =>
    if a.isDigit && b.isDigit && c.isDigit && d.isDigit && e.isDigit &&
        f.isDigit && g.isDigit && h.isDigit then
      some [a, b, c, d, '-', e, f, '-', g, h]
    else none
  | _ => none

/-- Pattern 2, `Date:\s*(\d{4}-\d{2}-\d{2})`, anchored; returns the capture
group. -/
def matchP2At (cs : List Char) : Option (List Char) :=
  match cs with
  | 'D' :: 'a' :: 't' :: 'e' :: ':' :: rest =>
    matchISOAt (rest.drop (rest.takeWhile isSpaceChar).length)
  | _ => none

/-- `re.search`: try the anchored matcher at each position left to right. -/
def reSearch (m : List Char → Option (List Char)) : List Char → Option (List Char)
  | [] => m []
  | c :: cs =>
    match m (c :: cs) with
    | some g => some g
    | none => reSearch m cs

/-- `_extract_meeting_date`: try the three patterns in order, returning the
first capture; otherwise fall back to `date.today().isoformat()`, supplied
here as the `today` argument (the one external input of this pure helper). -/
def extract_meeting_date (today : String) (transcript : String) : String :=
  match reSearch matchP1At transcript.data with
  | some g => String.mk g
  | none =>
    match reSearch matchP2At transcript.data with
    | some g => String.mk g
    | none =>
      match reSearch matchP3At transcript.data with
      | some g => String.mk g
      | none => today

/-! ## Graph nodes (agent.py) -/

/-- Python `str.strip()` (ASCII fragment): drop leading and trailing
whitespace. -/
def pyStrip (s : String) : String :=
  String.mk (((s.data.dropWhile isSpaceChar).reverse.dropWhile isSpaceChar).reverse)

/-- `intake`: validate the transcript.  Python's
`not transcript or len(transcript.strip()) < 20`. -/
def intake (state : MeetingState) : StateUpdate :=
  if state.transcript = "" ∨ (pyStrip state.transcript).length < 20 then
    { errors := ["Transcript is empty or too short (minimum 20 characters)."]
      processing_step := some "intake" }
  else { processing_step := some "intake" }

/-- `summarize`: Gateway call with fixed fallback on failure. -/
def summarize (gw : Gateway) (_state : MeetingState) : StateUpdate :=
  match gw.summarizeResult with
  | .ok r =>
    { summary := some r.summary
      key_topics := some r.key_topics
      participants := some r.participants
      processing_step := some "summarize" }
  | .error e =>
    { summary := some "Error generating summary."
      key_topics := some []
      participants := some []
      errors := ["Summarize error: " ++ e]
      processing_step := some "summarize" }

/-- Python `f"ai-{n:03d}"` padding: zero-pad the decimal form to width 3. -/
def pad3 (n : Nat) : String :=
  let s := toString n
  if s.length < 3 then String.mk (List.replicate (3 - s.length) '0') ++ s else s

/-- Attach the sequential id to an extracted item (`d = item.model_dump();
d["id"] = f"ai-{i + 1:03d}"`). -/
def ExtractedItem.toItem (it : ExtractedItem) (ident : String) : ActionItem :=
  { description := it.description
    assignee := it.assignee
    assignee_email := it.assignee_email
    priority := it.priority
    deadline := it.deadline
    context := it.context
    id := ident }

/-- The id-stamped list built by the success branch of
`extract_action_items`. -/
def stampIds (items : List ExtractedItem) : List ActionItem :=
  items.enum.map (fun p => p.2.toItem ("ai-" ++ pad3 (p.1 + 1)))

/-- The action-item list the extraction stage leaves in the state:
the stamped Gateway result, or `[]` on Gateway failure. -/
def extractedItems (gw : Gateway) : List ActionItem :=
  match gw.extractResult with
  | .ok items => stampIds items
  | .error _ => []

/-- `extract_action_items`: Gateway call, id stamping, empty list plus an
error on failure. -/
def extract_action_items (gw : Gateway) (_state : MeetingState) : StateUpdate :=
  match gw.extractResult with
  | .ok items =>
    { action_items := some (stampIds items)
      processing_step := some "extract_action_items" }
  | .error e =>
    { action_items := some []
      errors := ["Extract action items error: " ++ e]
      processing_step := some "extract_action_items" }

/-- One iteration of the `assign_owners` loop.  On success the item's
`assignee`/`assignee_email` are overwritten with the match.  On a per-item
exception the code runs `item = dict(item); item.setdefault("assignee",
"Unassigned")`; since every item dict produced by `extract_action_items`
contains the `"assignee"` key (its value possibly `None`), `setdefault`
never inserts anything and the item is returned unchanged. -/
def assignOwnerItem (res : Except String AssigneeMatch) (item : ActionItem) :
    ActionItem :=
  match res with
  | .ok m => { item with assignee := some m.name, assignee_email := some m.email }
  | .error _ => item

/-- `assign_owners`: per-item RAG lookup + Gateway call, each item processed
independently; the node appends no errors in either branch. -/
def assign_owners (gw : Gateway) (state : MeetingState) : StateUpdate :=
  { action_items := some (state.action_items.enum.map
      (fun p => assignOwnerItem (gw.assignResult p.1 p.2) p.2))
    processing_step := some "assign_owners" }

/-- `if 0 <= idx < len(updated_items): updated_items[idx]["deadline"] = d`. -/
def setDeadlineAt (items : List ActionItem) (idx : Int) (d : String) :
    List ActionItem :=
  if h : 0 ≤ idx ∧ idx.toNat < items.length then
    items.set idx.toNat { items.get ⟨idx.toNat, h.2⟩ with deadline := some d }
  else items

/-- Apply every returned `DeadlineEntry` in order (in-place mutation of the
copied list, later entries overwriting earlier ones at the same index). -/
def applyDeadlines (items : List ActionItem) (entries : List DeadlineEntry) :
    List ActionItem :=
  entries.foldl (fun acc e => setDeadlineAt acc e.index e.deadline) items

/-- `determine_deadlines`: early return on an empty list; otherwise Gateway
call (fed the extracted meeting date) and index-guarded application, or a
single appended error on failure with the item list left untouched. -/
def determine_deadlines (gw : Gateway) (today : String) (state : MeetingState) :
    StateUpdate :=
  if state.action_items = [] then { processing_step := some "determine_deadlines" }
  else
    match gw.deadlineResult (extract_meeting_date today state.transcript) with
    | .ok entries =>
      { action_items := some (applyDeadlines state.action_items entries)
        processing_step := some "determine_deadlines" }
    | .error e =>
      { errors := ["Deadline resolution error: " ++ e]
        processing_step := some "determine_deadlines" }

/-- `send_emails`: skip items whose `assignee_email` is `None` or empty
(Python truthiness of `if not email`), dispatch the rest, and record the
recipient only on a reported `"sent"` status. -/
def send_emails (send : Dispatcher) (state : MeetingState) : StateUpdate :=
  { emails_sent := some (state.action_items.foldl
      (fun acc item =>
        match item.assignee_email with
        | none => acc
        | some email =>
          if email = "" then acc
          else if send item state.summary = "sent" then acc ++ [email] else acc)
      [])
    processing_step := some "send_emails" }

/-- `should_continue`: route on Python truthiness of
`state.get("action_items")`; `"END"` stands for LangGraph's `END` sentinel. -/
def should_continue (state : MeetingState) : String :=
  if state.action_items ≠ [] then "assign_owners" else "END"

/-- `_initial_state`. -/
def initial_state (transcript source : String) : MeetingState :=
  { transcript := transcript
    transcript_source := source
    summary := ""
    key_topics := []
    participants := []
    action_items := []
    emails_sent := []
    errors := []
    processing_step := "" }

/-- The compiled graph of `build_graph`, streamed: run the fixed edge list
`START → intake → summarize → extract_action_items`, then the conditional
edge on `should_continue`, then `assign_owners → determine_deadlines →
send_emails → END`.  Returns the LangGraph stream (node name, node update)
in execution order together with the final merged state. -/
def process_transcript_stream (gw : Gateway) (send : Dispatcher)
    (today transcript source : String) :
    List (String × StateUpdate) × MeetingState :=
  let s0 := initial_state transcript source
  let u1 := intake s0
  let s1 := applyUpdate s0 u1
  let u2 := summarize gw s1
  let s2 := applyUpdate s1 u2
  let u3 := extract_action_items gw s2
  let s3 := applyUpdate s2 u3
  if should_continue s3 = "assign_owners" then
    let u4 := assign_owners gw s3
    let s4 := applyUpdate s3 u4
    let u5 := determine_deadlines gw today s4
    let s5 := applyUpdate s4 u5
    let u6 := send_emails send s5
    let s6 := applyUpdate s5 u6
    ([("intake", u1), ("summarize", u2), ("extract_action_items", u3),
      ("assign_owners", u4), ("determine_deadlines", u5), ("send_emails", u6)],
      s6)
  else
    ([("intake", u1), ("summarize", u2), ("extract_action_items", u3)], s3)

/-- `process_transcript`: the blocking entry point, returning the final
state. -/
def process_transcript (gw : Gateway) (send : Dispatcher)
    (today transcript source : String) : MeetingState :=
  (process_transcript_stream gw send today transcript source).2

/-- The streamed stage-name sequence, in execution order. -/
def pipelineTrace (gw : Gateway) (send : Dispatcher)
    (today transcript source : String) : List String :=
  (process_transcript_stream gw send today transcript source).1.map Prod.fst

/-! ## Query router (src/assistant/chain.py)

Nothing in `chain.py` catches exceptions, so every fallible call appears
monadically: an oracle `.error` propagates straight to the caller of
`classify_query` / `ask` / `ask_stream`, exactly as a raised Python exception
would. -/

/-- A `HumanMessage`/`AIMessage` history entry. -/
inductive ChatMessage where
  | human : String → ChatMessage
  | ai : String → ChatMessage
  deriving DecidableEq, Repr

/-- A retrieved document: `page_content` plus the metadata keys the router
reads (an `Option` `none` models an absent metadata key, read through
`metadata.get(key, default)`). -/
structure Doc where
  page_content : String
  name : Option String := none
  role : Option String := none
  meeting : Option String := none
  date : Option String := none
  deriving DecidableEq, Repr

/-- Which prompt template the router selected
(`TEAM_RAG_PROMPT` / `MEETING_RAG_PROMPT` / `GENERAL_PROMPT`). -/
inductive PromptKind where
  | team
  | meeting
  | general
  deriving DecidableEq, Repr

/-- The variables fed to the selected prompt.  `context = none` models the
general-knowledge input dict, which carries no `context` key at all. -/
structure ChainInputs where
  question : String
  context : Option String
  history : List ChatMessage
  deriving DecidableEq, Repr

/-- Oracle outcomes for the router's external calls: the classification
call (`classify_query`'s structured Gateway call, yielding the `category`
string), the two Retriever corpora, and the final answer call (blocking
content, or the streamed chunk contents). -/
structure RouterOracle where
  classifyResult : Except String String
  teamDocs : Except String (List Doc)
  meetingDocs : Except String (List Doc)
  answerResult : PromptKind → ChainInputs → Except String String
  answerChunks : PromptKind → ChainInputs → Except String (List String)

/-- `classify_query`: return the Gateway's `category` field. -/
def classify_query (o : RouterOracle) : Except String String :=
  o.classifyResult

/-- Context block built by `_build_team_chain_inputs`. -/
def teamContext (docs : List Doc) : String :=
  String.intercalate "\n\n" (docs.map (fun d =>
    "[" ++ d.name.getD "Unknown" ++ " - " ++ d.role.getD "" ++ "]\n" ++
      d.page_content))

/-- Context block built by `_build_meeting_chain_inputs`. -/
def meetingContext (docs : List Doc) : String :=
  String.intercalate "\n\n" (docs.map (fun d =>
    "[" ++ d.meeting.getD "Unknown Meeting" ++ " - " ++ d.date.getD "" ++ "]\n" ++
      d.page_content))

/-- `_build_team_chain_inputs`: top-3 team retrieval (fallible), labeled
context, source label `"Team Directory"`. -/
def build_team_chain_inputs (o : RouterOracle) (question : String)
    (history : List ChatMessage) : Except String (ChainInputs × String) := do
  let docs ← o.teamDocs
  pure (⟨question, some (teamContext docs), history⟩, "Team Directory")

/-- `_build_meeting_chain_inputs`. -/
def build_meeting_chain_inputs (o : RouterOracle) (question : String)
    (history : List ChatMessage) : Except String (ChainInputs × String) := do
  let docs ← o.meetingDocs
  pure (⟨question, some (meetingContext docs), history⟩, "Meeting History")

/-- `_build_general_chain_inputs`: no retrieval, no context key. -/
def build_general_chain_inputs (question : String) (history : List ChatMessage) :
    ChainInputs × String :=
  (⟨question, none, history⟩, "General Knowledge")

/-- `_resolve_category`: classify, then dispatch through
`_CATEGORY_CONFIG.get(category, (GENERAL_PROMPT, _build_general_chain_inputs))`
— an exact string lookup whose default is the general strategy. -/
def resolve_category (o : RouterOracle) (question : String)
    (history : List ChatMessage) :
    Except String (PromptKind × ChainInputs × String) := do
  let category ← classify_query o
  if category = "team" then do
    let r ← build_team_chain_inputs o question history
    pure (.team, r.1, r.2)
  else if category = "meeting" then do
    let r ← build_meeting_chain_inputs o question history
    pure (.meeting, r.1, r.2)
  else
    let r := build_general_chain_inputs question history
    pure (.general, r.1, r.2)

/-- `ask`: resolve, invoke the answer chain, return
`(answer_text, source_label)`. -/
def ask (o : RouterOracle) (question : String) (history : List ChatMessage) :
    Except String (String × String) := do
  let (pk, inputs, source) ← resolve_category o question history
  let content ← o.answerResult pk inputs
  pure (content, source)

/-- `ask_stream`: classification and retrieval are synchronous; the returned
generator is the (still fallible) chunk stream, empty chunks filtered out by
the `if chunk.content` truthiness test. -/
def ask_stream (o : RouterOracle) (question : String)
    (history : List ChatMessage) :
    Except String (String × Except String (List String)) := do
  let (pk, inputs, source) ← resolve_category o question history
  pure (source, (o.answerChunks pk inputs).map (fun cs => cs.filter (fun c => !(c == ""))))

/-! ## Helper lemmas -/

theorem applyUpdate_errors (s : MeetingState) (u : StateUpdate) :
    (applyUpdate s u).errors = s.errors ++ u.errors := rfl

theorem applyUpdate_transcript (s : MeetingState) (u : StateUpdate) :
    (applyUpdate s u).transcript = s.transcript := rfl

theorem action_items_after_extract (gw : Gateway) (s : MeetingState) :
    (applyUpdate s (extract_action_items gw s)).action_items = extractedItems gw := by
  unfold extract_action_items extractedItems applyUpdate
  cases gw.extractResult <;> rfl

theorem should_continue_iff (s : MeetingState) :
    should_continue s = "assign_owners" ↔ s.action_items ≠ [] := by
  unfold should_continue
  split
  · rename_i h; simp [h]
  · rename_i h; simp only [not_not] at h; simp [h]

theorem enumFrom_map_map {β : Type} (f : Nat → ActionItem → ActionItem)
    (g : ActionItem → β) (hf : ∀ i it, g (f i it) = g it) :
    ∀ (l : List ActionItem) (k : Nat),
      ((l.enumFrom k).map (fun p => f p.1 p.2)).map g = l.map g := by
  intro l
  induction l with
  | nil => intro k; rfl
  | cons a l ih =>
    intro k
    simp only [List.enumFrom, List.map_cons, hf]
    exact congrArg (g a :: ·) (ih (k + 1))

theorem assignOwnerItem_id (r : Except String AssigneeMatch) (it : ActionItem) :
    (assignOwnerItem r it).id = it.id := by
  cases r <;> rfl

theorem stampIds_enumFrom_ids :
    ∀ (items : List ExtractedItem) (k : Nat),
      ((items.enumFrom k).map (fun p => p.2.toItem ("ai-" ++ pad3 (p.1 + 1)))).map
          (fun it => it.id)
        = (List.range' (k + 1) items.length).map (fun i => "ai-" ++ pad3 i) := by
  intro items
  induction items with
  | nil => intro k; rfl
  | cons a l ih =>
    intro k
    simp only [List.enumFrom, List.map_cons, List.length_cons, List.range'_succ]
    rw [ih (k + 1)]
    rfl

theorem range'_map_shift : ∀ (n s : Nat),
    (List.range' (s + 1) n).map (fun i => "ai-" ++ pad3 i)
      = (List.range' s n).map (fun i => "ai-" ++ pad3 (i + 1)) := by
  intro n
  induction n with
  | zero => intro s; rfl
  | succ m ih =>
    intro s
    simp only [List.range'_succ, List.map_cons]
    rw [ih (s + 1)]

theorem stampIds_ids (items : List ExtractedItem) :
    (stampIds items).map (fun it => it.id)
      = (List.range items.length).map (fun i => "ai-" ++ pad3 (i + 1)) := by
  rw [List.range_eq_range', ← range'_map_shift]
  exact stampIds_enumFrom_ids items 0

theorem setDeadlineAt_length (items : List ActionItem) (idx : Int) (d : String) :
    (setDeadlineAt items idx d).length = items.length := by
  unfold setDeadlineAt
  split <;> simp

theorem setDeadlineAt_getElem? (items : List ActionItem) (idx : Int) (d : String)
    (j : Nat) :
    (setDeadlineAt items idx d)[j]? =
      if idx = (j : Int) ∧ j < items.length then
        items[j]?.map (fun it => { it with deadline := some d })
      else items[j]? := by
  unfold setDeadlineAt
  by_cases hin : 0 ≤ idx ∧ idx.toNat < items.length
  · rw [dif_pos hin, List.getElem?_set]
    by_cases hj : idx.toNat = j
    · have hj' : idx = (j : Int) := by omega
      have hjl : j < items.length := by omega
      rw [if_pos hj, if_pos hin.2, if_pos ⟨hj', hjl⟩,
        List.getElem?_eq_getElem hjl, Option.map_some']
      subst hj
      simp [List.get_eq_getElem]
    · have hne : ¬(idx = (j : Int) ∧ j < items.length) := by
        rintro ⟨h1, _⟩; omega
      rw [if_neg hj, if_neg hne]
  · have hne : ¬(idx = (j : Int) ∧ j < items.length) := by
      rintro ⟨h1, h2⟩
      exact hin ⟨by omega, by omega⟩
    rw [dif_neg hin, if_neg hne]

/-- The deadline value item `j` ends up with after the entry list is applied:
the last entry naming index `j` wins, and an item named by no entry keeps its
prior deadline `dl0`. -/
def resolveAt (j : Nat) (entries : List DeadlineEntry) (dl0 : Option String) :
    Option String :=
  entries.foldl (fun dl e => if e.index = (j : Int) then some e.deadline else dl) dl0

theorem applyDeadlines_length (items : List ActionItem)
    (entries : List DeadlineEntry) :
    (applyDeadlines items entries).length = items.length := by
  unfold applyDeadlines
  induction entries generalizing items with
  | nil => rfl
  | cons e es ih =>
    rw [List.foldl_cons, ih, setDeadlineAt_length]

theorem applyDeadlines_getElem? :
    ∀ (entries : List DeadlineEntry) (items : List ActionItem) (j : Nat),
      (applyDeadlines items entries)[j]? =
        items[j]?.map (fun it => { it with deadline := resolveAt j entries it.deadline }) := by
  intro entries
  induction entries with
  | nil =>
    intro items j
    have hid : applyDeadlines items [] = items := rfl
    rw [hid]
    cases hv : items[j]? <;> rfl
  | cons e es ih =>
    intro items j
    unfold applyDeadlines at ih ⊢
    unfold resolveAt at ih ⊢
    simp only [List.foldl_cons]
    rw [ih, setDeadlineAt_getElem?]
    by_cases hj : e.index = (j : Int) ∧ j < items.length
    · rw [if_pos hj, List.getElem?_eq_getElem hj.2]
      simp only [Option.map_some']
      rw [if_pos hj.1]
    · rw [if_neg hj]
      by_cases h1 : e.index = (j : Int)
      · have hlen : items.length ≤ j := by
          by_contra hc
          exact hj ⟨h1, by omega⟩
        rw [List.getElem?_eq_none hlen]
        rfl
      · cases hv : items[j]?
        · rfl
        · simp only [Option.map_some']
          rw [if_neg h1]

theorem applyDeadlines_map_ids (items : List ActionItem)
    (entries : List DeadlineEntry) :
    (applyDeadlines items entries).map (fun it => it.id)
      = items.map (fun it => it.id) := by
  apply List.ext_getElem?
  intro j
  rw [List.getElem?_map, List.getElem?_map, applyDeadlines_getElem?,
    Option.map_map]
  cases items[j]? <;> rfl

/-! ## Concrete fixtures for witnesses and counterexamples -/

/-- A concrete extracted action item with no mentioned assignee. -/
def itemA : ExtractedItem :=
  { description := "Ship the Q3 report"
    assignee := none
    assignee_email := none
    priority := "MEDIUM"
    deadline := some "by Friday"
    context := none }

/-- A concrete extracted action item with a mentioned assignee. -/
def itemB : ExtractedItem :=
  { description := "Book the offsite room"
    assignee := some "Dana"
    assignee_email := some "dana@example.com"
    priority := "HIGH"
    deadline := none
    context := some "offsite planning" }

/-- A Gateway whose every call succeeds, extracting two items; the deadline
resolution deliberately names the out-of-range indices 5 and -1. -/
def gwHappy : Gateway :=
  { summarizeResult := .ok
      { summary := "Budget review sync"
        key_topics := ["budget"]
        participants := ["Ann", "Bob"] }
    extractResult := .ok [itemA, itemB]
    assignResult := fun _ _ => .ok
      { name := "Ann Lee", email := "ann@example.com", reasoning := "best match" }
    deadlineResult := fun _ => .ok
      [{ index := 5, deadline := "2025-06-06" },
        { index := 0, deadline := "2025-06-06" },
        { index := -1, deadline := "2025-01-01" }] }

/-- A Gateway whose every call fails. -/
def gwAllFail : Gateway :=
  { summarizeResult := .error "model down"
    extractResult := .error "model down"
    assignResult := fun _ _ => .error "model down"
    deadlineResult := fun _ => .error "model down" }

/-- A Gateway that extracts one item but fails everywhere else. -/
def gwExtractOnly : Gateway :=
  { summarizeResult := .error "model down"
    extractResult := .ok [itemA]
    assignResult := fun _ _ => .error "model down"
    deadlineResult := fun _ => .error "model down" }

/-- A dispatcher that reports every notification as sent. -/
def sendAll : Dispatcher := fun _ _ => "sent"

/-- A concrete mid-pipeline state holding one action item. -/
def stOne : MeetingState :=
  { transcript := "Team sync covering the quarterly budget and planning."
    transcript_source := "sample"
    summary := "Budget review sync"
    key_topics := []
    participants := []
    action_items := [itemA.toItem "ai-001"]
    emails_sent := []
    errors := []
    processing_step := "assign_owners" }

theorem initial_state_transcript (t src : String) :
    (initial_state t src).transcript = t := rfl

theorem initial_state_errors (t src : String) :
    (initial_state t src).errors = [] := rfl

theorem intake_errors (s : MeetingState) :
    (intake s).errors =
      if s.transcript = "" ∨ (pyStrip s.transcript).length < 20
      then ["Transcript is empty or too short (minimum 20 characters)."]
      else [] := by
  by_cases h : s.transcript = "" ∨ (pyStrip s.transcript).length < 20 <;> simp [intake, h]

theorem summarize_errors (gw : Gateway) (s : MeetingState) :
    (summarize gw s).errors =
      match gw.summarizeResult with
      | .ok _ => []
      | .error e => ["Summarize error: " ++ e] := by
  cases h : gw.summarizeResult <;> simp [summarize, h]

theorem extract_errors (gw : Gateway) (s : MeetingState) :
    (extract_action_items gw s).errors =
      match gw.extractResult with
      | .ok _ => []
      | .error e => ["Extract action items error: " ++ e] := by
  cases h : gw.extractResult <;> simp [extract_action_items, h]

theorem assign_errors (gw : Gateway) (s : MeetingState) :
    (assign_owners gw s).errors = [] := rfl

theorem determine_errors (gw : Gateway) (today : String) (s : MeetingState) :
    (determine_deadlines gw today s).errors =
      if s.action_items = [] then []
      else
        match gw.deadlineResult (extract_meeting_date today s.transcript) with
        | .ok _ => []
        | .error e => ["Deadline resolution error: " ++ e] := by
  by_cases he : s.action_items = []
  · simp [determine_deadlines, he]
  · cases hd : gw.deadlineResult (extract_meeting_date today s.transcript) <;>
      simp [determine_deadlines, he, hd]

theorem send_errors (send : Dispatcher) (s : MeetingState) :
    (send_emails send s).errors = [] := rfl

/-- Closed form of the final error list: every stage-level failure appends
exactly its one diagnostic, in stage order; the deadline diagnostic can only
appear when extraction left items (otherwise the stage never runs). -/
theorem process_errors (gw : Gateway) (send : Dispatcher) (today t src : String) :
    (process_transcript gw send today t src).errors =
      (if t = "" ∨ (pyStrip t).length < 20
        then ["Transcript is empty or too short (minimum 20 characters)."]
        else [])
      ++ (match gw.summarizeResult with
          | .ok _ => []
          | .error e => ["Summarize error: " ++ e])
      ++ (match gw.extractResult with
          | .ok _ => []
          | .error e => ["Extract action items error: " ++ e])
      ++ (if extractedItems gw = [] then []
          else
            match gw.deadlineResult (extract_meeting_date today t) with
            | .ok _ => []
            | .error e => ["Deadline resolution error: " ++ e]) := by
  unfold process_transcript
  simp only [process_transcript_stream]
  set s0 := initial_state t src with hs0
  set s1 := applyUpdate s0 (intake s0) with hs1
  set s2 := applyUpdate s1 (summarize gw s1) with hs2
  set s3 := applyUpdate s2 (extract_action_items gw s2) with hs3
  set s4 := applyUpdate s3 (assign_owners gw s3) with hs4
  set s5 := applyUpdate s4 (determine_deadlines gw today s4) with hs5
  have h3 : s3.action_items = extractedItems gw := by
    rw [hs3]; exact action_items_after_extract gw s2
  have ht1 : s1.transcript = t := by
    rw [hs1, applyUpdate_transcript, hs0, initial_state_transcript]
  have ht4 : s4.transcript = t := by
    rw [hs4, applyUpdate_transcript, hs3, applyUpdate_transcript, hs2,
      applyUpdate_transcript, hs1, applyUpdate_transcript, hs0,
      initial_state_transcript]
  have herr3 : s3.errors =
      (if t = "" ∨ (pyStrip t).length < 20
        then ["Transcript is empty or too short (minimum 20 characters)."]
        else [])
      ++ (match gw.summarizeResult with
          | .ok _ => []
          | .error e => ["Summarize error: " ++ e])
      ++ (match gw.extractResult with
          | .ok _ => []
          | .error e => ["Extract action items error: " ++ e]) := by
    rw [hs3, applyUpdate_errors, hs2, applyUpdate_errors, hs1, applyUpdate_errors,
      intake_errors, summarize_errors, extract_errors, hs0]
    simp only [initial_state_errors, initial_state_transcript, List.nil_append]
  by_cases hc : extractedItems gw = []
  · have hcond : ¬ should_continue s3 = "assign_owners" := by
      rw [should_continue_iff, h3]
      exact fun hne => hne hc
    rw [if_neg hcond, if_pos hc, List.append_nil]
    exact herr3
  · have hcond : should_continue s3 = "assign_owners" := by
      rw [should_continue_iff, h3]
      exact hc
    rw [if_pos hcond]
    show (applyUpdate s5 (send_emails send s5)).errors = _
    rw [applyUpdate_errors, send_errors, List.append_nil, hs5, applyUpdate_errors,
      determine_errors]
    have h4ne : ¬ s4.action_items = [] := by
      rw [hs4]
      show ¬ (s3.action_items.enum.map
        (fun p => assignOwnerItem (gw.assignResult p.1 p.2) p.2)) = []
      rw [List.map_eq_nil_iff, List.enum_eq_nil, h3]
      exact hc
    rw [if_neg h4ne, ht4, hs4, applyUpdate_errors, assign_errors, List.append_nil,
      herr3, if_neg hc]

/-- The streamed stage sequence is fully determined by whether extraction
leaves any items: the conditional edge after `extract_action_items` either
ends the run or continues through the three remaining stages. -/
theorem pipelineTrace_eq (gw : Gateway) (send : Dispatcher)
    (today t src : String) :
    pipelineTrace gw send today t src =
      if extractedItems gw = [] then
        ["intake", "summarize", "extract_action_items"]
      else
        ["intake", "summarize", "extract_action_items", "assign_owners",
          "determine_deadlines", "send_emails"] := by
  simp only [pipelineTrace, process_transcript_stream]
  generalize applyUpdate (applyUpdate (initial_state t src) (intake (initial_state t src)))
      (summarize gw (applyUpdate (initial_state t src) (intake (initial_state t src)))) = s2
  by_cases he : extractedItems gw = []
  · have hc : ¬ should_continue (applyUpdate s2 (extract_action_items gw s2))
        = "assign_owners" := by
      rw [should_continue_iff, action_items_after_extract]
      exact fun hne => hne he
    rw [if_neg hc, if_pos he]
    rfl
  · have hc : should_continue (applyUpdate s2 (extract_action_items gw s2))
        = "assign_owners" := by
      rw [should_continue_iff, action_items_after_extract]
      exact he
    rw [if_pos hc, if_neg he]
    rfl

/-! ## Claim theorems -/

/-- **C2.** If extraction yields no action items, the run ends after
`extract_action_items`: the streamed stage sequence omits `assign_owners`,
`determine_deadlines` and `send_emails`; if it yields any item, the run
continues with `assign_owners` and the remaining stages. -/
theorem c2_empty_extraction_skips_assignment (gw : Gateway) (send : Dispatcher)
    (today t src : String) :
    pipelineTrace gw send today t src =
      if extractedItems gw = [] then
        ["intake", "summarize", "extract_action_items"]
      else
        ["intake", "summarize", "extract_action_items", "assign_owners",
          "determine_deadlines", "send_emails"] :=
  pipelineTrace_eq gw send today t src

/-- **C3.** Extraction stamps the i-th item (0-based) with id `ai-NNN`,
`NNN = i + 1` zero-padded to three digits, in extraction order; and each
subsequent stage (`assign_owners`, `determine_deadlines`, `send_emails`)
leaves every item's `id` unchanged in the merged state. -/
theorem c3_ids_assigned_once_and_stable (gw : Gateway) (send : Dispatcher)
    (today : String) (st : MeetingState) (items : List ExtractedItem) :
    (stampIds items).map (fun it => it.id)
        = (List.range items.length).map (fun i => "ai-" ++ pad3 (i + 1)) ∧
    (applyUpdate st (assign_owners gw st)).action_items.map (fun it => it.id)
        = st.action_items.map (fun it => it.id) ∧
    (applyUpdate st (determine_deadlines gw today st)).action_items.map (fun it => it.id)
        = st.action_items.map (fun it => it.id) ∧
    (applyUpdate st (send_emails send st)).action_items.map (fun it => it.id)
        = st.action_items.map (fun it => it.id) := by
  refine ⟨stampIds_ids items, ?_, ?_, rfl⟩
  · exact enumFrom_map_map
      (fun i it => assignOwnerItem (gw.assignResult i it) it)
      (fun it => it.id)
      (fun i it => assignOwnerItem_id (gw.assignResult i it) it)
      st.action_items 0
  · by_cases he : st.action_items = []
    · simp [determine_deadlines, he, applyUpdate]
    · cases hd : gw.deadlineResult (extract_meeting_date today st.transcript) with
      | ok entries =>
        simp [determine_deadlines, he, hd, applyUpdate, applyDeadlines_map_ids]
      | error e =>
        simp [determine_deadlines, he, hd, applyUpdate]

/-- **C5.** Applying the resolved deadline pairs preserves the length and
order of the item list; the item at position `j` differs from its prior value
at most in `deadline`, which becomes the last in-range entry naming index `j`
(out-of-range indices — including every negative one — match no position and
are dropped), or keeps its prior text when no entry names `j`; and the stage
appends no error in the successful branch (only a Gateway failure appends
one). -/
theorem c5_out_of_range_deadline_indices_dropped (items : List ActionItem)
    (entries : List DeadlineEntry) (j : Nat) (gw : Gateway) (today : String)
    (st : MeetingState) :
    (applyDeadlines items entries).length = items.length ∧
    (applyDeadlines items entries)[j]? =
      items[j]?.map (fun it => { it with deadline := resolveAt j entries it.deadline }) ∧
    (determine_deadlines gw today st).errors =
      (if st.action_items = [] then []
        else
          match gw.deadlineResult (extract_meeting_date today st.transcript) with
          | .ok _ => []
          | .error e => ["Deadline resolution error: " ++ e]) := by
  refine ⟨applyDeadlines_length items entries, applyDeadlines_getElem? entries items j, ?_⟩
  by_cases he : st.action_items = []
  · simp [determine_deadlines, he]
  · cases hd : gw.deadlineResult (extract_meeting_date today st.transcript) <;>
      simp [determine_deadlines, he, hd]

/-- **C6.** When the Gateway deadline call fails on a non-empty item list,
the stage appends exactly one error and the merged state's action-item list
is exactly the list from before the stage. -/
theorem c6_deadline_failure_is_atomic (gw : Gateway) (today : String)
    (st : MeetingState) (e : String)
    (hne : st.action_items ≠ [])
    (herr : gw.deadlineResult (extract_meeting_date today st.transcript) = .error e) :
    (applyUpdate st (determine_deadlines gw today st)).action_items = st.action_items ∧
    (applyUpdate st (determine_deadlines gw today st)).errors
      = st.errors ++ ["Deadline resolution error: " ++ e] := by
  constructor <;> simp [determine_deadlines, hne, herr, applyUpdate]

/-- Witness for C6: a concrete one-item state and an all-failing Gateway
satisfy the hypotheses, and the conclusion evaluates as stated. -/
theorem c6_witness :
    (stOne.action_items ≠ [] ∧
      gwAllFail.deadlineResult (extract_meeting_date "2026-01-01" stOne.transcript)
        = .error "model down") ∧
    (applyUpdate stOne (determine_deadlines gwAllFail "2026-01-01" stOne)).action_items
        = stOne.action_items ∧
    (applyUpdate stOne (determine_deadlines gwAllFail "2026-01-01" stOne)).errors
        = stOne.errors ++ ["Deadline resolution error: " ++ "model down"] :=
  ⟨⟨by decide, rfl⟩,
    c6_deadline_failure_is_atomic gwAllFail "2026-01-01" stOne "model down"
      (by decide) rfl⟩

/-- **C7.** When the Gateway summarize call fails, the merged state carries
the fixed fallback sentence, empty key topics and participants, and exactly
one new error entry; and the run still executes `extract_action_items`
directly after `summarize` (the trace always begins with the three
unconditional stages). -/
theorem c7_summarize_failure_falls_back (gw : Gateway) (s : MeetingState)
    (e : String) (h : gw.summarizeResult = .error e) :
    (applyUpdate s (summarize gw s)).summary = "Error generating summary." ∧
    (applyUpdate s (summarize gw s)).key_topics = [] ∧
    (applyUpdate s (summarize gw s)).participants = [] ∧
    (applyUpdate s (summarize gw s)).errors = s.errors ++ ["Summarize error: " ++ e] ∧
    ∀ (send : Dispatcher) (today t src : String),
      (pipelineTrace gw send today t src).take 3
        = ["intake", "summarize", "extract_action_items"] := by
  refine ⟨?_, ?_, ?_, ?_, ?_⟩
  · simp [summarize, h, applyUpdate]
  · simp [summarize, h, applyUpdate]
  · simp [summarize, h, applyUpdate]
  · simp [summarize, h, applyUpdate]
  · intro send today t src
    rw [pipelineTrace_eq]
    split <;> rfl

/-- Witness for C7: the all-failing Gateway satisfies the hypothesis and the
conclusion evaluates as stated on a concrete state and run. -/
theorem c7_witness :
    gwAllFail.summarizeResult = .error "model down" ∧
    (applyUpdate stOne (summarize gwAllFail stOne)).summary
        = "Error generating summary." ∧
    (applyUpdate stOne (summarize gwAllFail stOne)).key_topics = [] ∧
    (applyUpdate stOne (summarize gwAllFail stOne)).participants = [] ∧
    (applyUpdate stOne (summarize gwAllFail stOne)).errors
        = stOne.errors ++ ["Summarize error: " ++ "model down"] ∧
    (pipelineTrace gwAllFail sendAll "2026-01-01" "too short" "sample").take 3
        = ["intake", "summarize", "extract_action_items"] :=
  ⟨rfl,
    (c7_summarize_failure_falls_back gwAllFail stOne "model down" rfl).1,
    (c7_summarize_failure_falls_back gwAllFail stOne "model down" rfl).2.1,
    (c7_summarize_failure_falls_back gwAllFail stOne "model down" rfl).2.2.1,
    (c7_summarize_failure_falls_back gwAllFail stOne "model down" rfl).2.2.2.1,
    (c7_summarize_failure_falls_back gwAllFail stOne "model down" rfl).2.2.2.2
      sendAll "2026-01-01" "too short" "sample"⟩

theorem applyUpdate_send_action_items (send : Dispatcher) (s : MeetingState) :
    (applyUpdate s (send_emails send s)).action_items = s.action_items := rfl

theorem applyUpdate_assign_length (gw : Gateway) (s : MeetingState) :
    (applyUpdate s (assign_owners gw s)).action_items.length
      = s.action_items.length := by
  show (s.action_items.enum.map
      (fun p => assignOwnerItem (gw.assignResult p.1 p.2) p.2)).length
    = s.action_items.length
  rw [List.length_map, List.enum_length]

theorem applyUpdate_determine_length (gw : Gateway) (today : String)
    (s : MeetingState) :
    (applyUpdate s (determine_deadlines gw today s)).action_items.length
      = s.action_items.length := by
  by_cases he : s.action_items = []
  · simp [determine_deadlines, he, applyUpdate]
  · cases hd : gw.deadlineResult (extract_meeting_date today s.transcript) with
    | ok entries =>
      simp [determine_deadlines, he, hd, applyUpdate, applyDeadlines_length]
    | error e =>
      simp [determine_deadlines, he, hd, applyUpdate]

/-- The final state carries exactly as many action items as extraction
produced: every later stage is length- and order-preserving. -/
theorem process_action_items_length (gw : Gateway) (send : Dispatcher)
    (today t src : String) :
    (process_transcript gw send today t src).action_items.length
      = (extractedItems gw).length := by
  unfold process_transcript
  simp only [process_transcript_stream]
  generalize applyUpdate (applyUpdate (initial_state t src) (intake (initial_state t src)))
      (summarize gw (applyUpdate (initial_state t src) (intake (initial_state t src)))) = s2
  by_cases hc : should_continue (applyUpdate s2 (extract_action_items gw s2))
      = "assign_owners"
  · rw [if_pos hc]
    show (applyUpdate _ (send_emails send _)).action_items.length = _
    rw [applyUpdate_send_action_items, applyUpdate_determine_length,
      applyUpdate_assign_length, action_items_after_extract]
  · rw [if_neg hc]
    show (applyUpdate s2 (extract_action_items gw s2)).action_items.length = _
    rw [action_items_after_extract]

/-- **C1** (amended: pipeline side).  For every Gateway/dispatcher outcome —
including every failing one — the pipeline runs to termination through one of
its two fixed stage sequences and returns a complete state whose error list
is exactly the accumulated per-stage diagnostics; no stage failure escapes
the pipeline boundary.  (The router, by contrast, propagates failures: see
the counterexample.) -/
theorem c1_pipeline_never_raises (gw : Gateway) (send : Dispatcher)
    (today t src : String) :
    (pipelineTrace gw send today t src
        = ["intake", "summarize", "extract_action_items"] ∨
      pipelineTrace gw send today t src
        = ["intake", "summarize", "extract_action_items", "assign_owners",
            "determine_deadlines", "send_emails"]) ∧
    (process_transcript gw send today t src).errors =
      (if t = "" ∨ (pyStrip t).length < 20
        then ["Transcript is empty or too short (minimum 20 characters)."]
        else [])
      ++ (match gw.summarizeResult with
          | .ok _ => []
          | .error e => ["Summarize error: " ++ e])
      ++ (match gw.extractResult with
          | .ok _ => []
          | .error e => ["Extract action items error: " ++ e])
      ++ (if extractedItems gw = [] then []
          else
            match gw.deadlineResult (extract_meeting_date today t) with
            | .ok _ => []
            | .error e => ["Deadline resolution error: " ++ e]) := by
  constructor
  · rw [pipelineTrace_eq]
    split
    · exact Or.inl rfl
    · exact Or.inr rfl
  · exact process_errors gw send today t src

/-- A router oracle whose classification Gateway call fails. -/
def oFail : RouterOracle :=
  { classifyResult := .error "gateway unavailable"
    teamDocs := .ok []
    meetingDocs := .ok []
    answerResult := fun _ _ => .ok "hi"
    answerChunks := fun _ _ => .ok ["hi"] }

/-- **C1 counterexample.** `chain.py` contains no exception handling: a
Gateway failure inside `classify_query` propagates out of `ask` and
`ask_stream` (the `Except.error` outcome models the uncaught Python
exception), so their caller does not receive a completed
`(answer, sourceLabel)` result — refuting the claim for the router
entry points. -/
theorem c1_counterexample :
    ask oFail "What is our launch date?" [] = .error "gateway unavailable" ∧
    ask_stream oFail "What is our launch date?" [] = .error "gateway unavailable" :=
  ⟨rfl, rfl⟩

/-- **C4 counterexample.** A 5-character transcript fails intake validation,
yet when the Gateway still extracts an action item from it the final state's
`action_items` is non-empty: nothing ties the intake violation to an empty
final list, because the pipeline fails open and extraction still runs. -/
theorem c4_counterexample :
    (pyStrip "short").length < 20 ∧
    (process_transcript gwExtractOnly sendAll "2026-01-01" "short" "sample").action_items
      ≠ [] := by
  constructor
  · decide
  · decide

/-- **C4** (amended).  For every transcript whose trimmed length is below 20,
`intake` appends exactly one validation error, the pipeline still reaches
terminal through one of its two fixed stage sequences, and the final
`action_items` is empty exactly when extraction yields no items (on Gateway
extraction failure or an extracted empty list); a successful non-empty
extraction still produces a non-empty final list. -/
theorem c4_short_transcript_fails_open (gw : Gateway) (send : Dispatcher)
    (today t src : String) (h : (pyStrip t).length < 20) :
    (intake (initial_state t src)).errors
        = ["Transcript is empty or too short (minimum 20 characters)."] ∧
    (pipelineTrace gw send today t src
        = ["intake", "summarize", "extract_action_items"] ∨
      pipelineTrace gw send today t src
        = ["intake", "summarize", "extract_action_items", "assign_owners",
            "determine_deadlines", "send_emails"]) ∧
    ((process_transcript gw send today t src).action_items = []
      ↔ extractedItems gw = []) := by
  refine ⟨?_, ?_, ?_⟩
  · rw [intake_errors, if_pos]
    rw [initial_state_transcript]
    exact Or.inr h
  · rw [pipelineTrace_eq]
    split
    · exact Or.inl rfl
    · exact Or.inr rfl
  · rw [← List.length_eq_zero, process_action_items_length, List.length_eq_zero]

/-- Witness for C4: a concrete 5-character transcript discharges the
hypothesis; with the Gateway failing extraction the final list is empty. -/
theorem c4_witness :
    (pyStrip "short").length < 20 ∧
    (intake (initial_state "short" "sample")).errors
        = ["Transcript is empty or too short (minimum 20 characters)."] ∧
    ((process_transcript gwAllFail sendAll "2026-01-01" "short" "sample").action_items = []
      ↔ extractedItems gwAllFail = []) :=
  ⟨by decide,
    (c4_short_transcript_fails_open gwAllFail sendAll "2026-01-01" "short" "sample"
      (by decide)).1,
    (c4_short_transcript_fails_open gwAllFail sendAll "2026-01-01" "short" "sample"
      (by decide)).2.2⟩

/-- **C8.** Any classifier category other than exactly `team`, `meeting` or
`general` — capitalized or malformed variants included — dispatches the
general strategy: the general prompt, inputs without any retrieval context,
and source label `General Knowledge`.  The oracle is arbitrary, so the
result holds whatever the retrieval stores would return (they are never
consulted), and the request does not fail. -/
theorem c8_unrecognized_category_falls_back (o : RouterOracle) (q : String)
    (hist : List ChatMessage) (cat : String)
    (hc : o.classifyResult = .ok cat)
    (h1 : cat ≠ "team") (h2 : cat ≠ "meeting") (_h3 : cat ≠ "general") :
    resolve_category o q hist =
      .ok (.general, { question := q, context := none, history := hist },
        "General Knowledge") := by
  unfold resolve_category classify_query
  rw [hc]
  simp only [Bind.bind, Except.bind, h1, h2, if_neg, if_false,
    build_general_chain_inputs]
  rfl

/-- A router oracle returning the malformed category `"Team"` while both
retrieval stores are down. -/
def oUnknownCat : RouterOracle :=
  { classifyResult := .ok "Team"
    teamDocs := .error "store down"
    meetingDocs := .error "store down"
    answerResult := fun _ _ => .ok "answer"
    answerChunks := fun _ _ => .ok ["answer"] }

/-- Witness for C8: the capitalized category `"Team"` is none of the three
recognized strings and resolves to the general strategy even though both
retrieval stores would fail if consulted. -/
theorem c8_witness :
    oUnknownCat.classifyResult = .ok "Team" ∧
    ("Team" ≠ "team" ∧ "Team" ≠ "meeting" ∧ "Team" ≠ "general") ∧
    resolve_category oUnknownCat "Who is the PM?" [] =
      .ok (.general, { question := "Who is the PM?", context := none, history := [] },
        "General Knowledge") :=
  ⟨rfl, ⟨by decide, by decide, by decide⟩,
    c8_unrecognized_category_falls_back oUnknownCat "Who is the PM?" [] "Team"
      rfl (by decide) (by decide) (by decide)⟩

/-- **C10** (code-bug evaluation).  On a per-item failure `assign_owners`
runs `item = dict(item); item.setdefault("assignee", "Unassigned")`; because
every item dict built by `extract_action_items` via `model_dump()` already
contains the `"assignee"` key (value possibly `None`), the `setdefault`
never fires.  Evaluated at the failing input — an item whose `assignee` is
`None` and a Gateway whose per-item call fails — the item keeps `assignee =
None` instead of receiving `"Unassigned"`.  The frame part of the claim does
hold: no error is appended and the list length is preserved for every state
and oracle. -/
theorem c10_failed_item_keeps_null_assignee :
    (applyUpdate stOne (assign_owners gwAllFail stOne)).action_items
        = [itemA.toItem "ai-001"] ∧
    (itemA.toItem "ai-001").assignee = none ∧
    (∀ (gw : Gateway) (st : MeetingState),
      (assign_owners gw st).errors = [] ∧
      (applyUpdate st (assign_owners gw st)).action_items.length
        = st.action_items.length) := by
  refine ⟨by decide, rfl, fun gw st => ⟨rfl, applyUpdate_assign_length gw st⟩⟩

/-! ## Structural characterization of the date-pattern captures (C9) -/

/-- Shape of a capture of `,?\s*\d{4}`. -/
def SepYearShape (t : List Char) : Prop :=
  ∃ sep sp y, t = sep ++ sp ++ y ∧ (sep = [] ∨ sep = [',']) ∧
    sp.all isSpaceChar = true ∧ y.length = 4 ∧ y.all Char.isDigit = true

/-- Shape of a capture of `\d{1,2},?\s*\d{4}`. -/
def DayTailShape (t : List Char) : Prop :=
  ∃ d r, t = d ++ r ∧ d ≠ [] ∧ d.length ≤ 2 ∧ d.all Char.isDigit = true ∧
    SepYearShape r

/-- Shape of a capture of the bare pattern `(\w+ \d{1,2},?\s*\d{4})`: a
nonempty token of word characters (letters, digits or underscore — not only
month names), a space, then a day-and-year tail. -/
def P3Shape (g : List Char) : Prop :=
  ∃ w r, g = w ++ (' ' :: r) ∧ w ≠ [] ∧ w.all isWordChar = true ∧ DayTailShape r

/-- Shape of a capture of `(\d{4}-\d{2}-\d{2})`. -/
def ISOShape (g : List Char) : Prop :=
  ∃ y m d, g = y ++ ('-' :: (m ++ ('-' :: d))) ∧
    y.length = 4 ∧ m.length = 2 ∧ d.length = 2 ∧
    y.all Char.isDigit = true ∧ m.all Char.isDigit = true ∧
    d.all Char.isDigit = true

theorem matchYear4_sound {cs y : List Char} (h : matchYear4 cs = some y) :
    y.length = 4 ∧ y.all Char.isDigit = true := by
  unfold matchYear4 at h
  split at h
  · rename_i a b c d rest
    split at h
    · rename_i hd
      injection h with h'
      subst h'
      simp only [Bool.and_eq_true] at hd
      exact ⟨rfl, by simp [hd.1.1.1, hd.1.1.2, hd.1.2, hd.2]⟩
    · exact absurd h (by simp)
  · exact absurd h (by simp)

theorem matchSepYear_sound {cs t : List Char} (h : matchSepYear cs = some t) :
    SepYearShape t := by
  unfold matchSepYear at h
  split at h
  · rename_i rest
    rw [Option.map_eq_some'] at h
    obtain ⟨y, hy, ht⟩ := h
    obtain ⟨hl, hall⟩ := matchYear4_sound hy
    refine ⟨[','], rest.takeWhile isSpaceChar, y, ?_, Or.inr rfl,
      List.all_takeWhile, hl, hall⟩
    rw [← ht]
    simp
  · rw [Option.map_eq_some'] at h
    obtain ⟨y, hy, ht⟩ := h
    obtain ⟨hl, hall⟩ := matchYear4_sound hy
    refine ⟨[], cs.takeWhile isSpaceChar, y, ?_, Or.inl rfl,
      List.all_takeWhile, hl, hall⟩
    rw [← ht]
    simp

theorem matchDayTail_sound {cs t : List Char} (h : matchDayTail cs = some t) :
    DayTailShape t := by
  unfold matchDayTail at h
  split at h
  · rename_i a b rest
    split at h
    · rename_i ha
      split at h
      · rename_i hb
        split at h
        · rename_i t' ht'
          injection h with h'
          subst h'
          exact ⟨[a, b], t', by simp, by simp, by simp, by simp [ha, hb],
            matchSepYear_sound ht'⟩
        · rw [Option.map_eq_some'] at h
          obtain ⟨t', ht', rfl⟩ := h
          exact ⟨[a], t', by simp, by simp, by simp, by simp [ha],
            matchSepYear_sound ht'⟩
      · rw [Option.map_eq_some'] at h
        obtain ⟨t', ht', rfl⟩ := h
        exact ⟨[a], t', by simp, by simp, by simp, by simp [ha],
          matchSepYear_sound ht'⟩
    · exact absurd h (by simp)
  · rename_i a
    split at h
    · rename_i ha
      rw [Option.map_eq_some'] at h
      obtain ⟨t', ht', rfl⟩ := h
      exact ⟨[a], t', by simp, by simp, by simp, by simp [ha],
        matchSepYear_sound ht'⟩
    · exact absurd h (by simp)
  · exact absurd h (by simp)

theorem matchP3At_sound {cs g : List Char} (h : matchP3At cs = some g) :
    P3Shape g := by
  unfold matchP3At at h
  split at h
  · exact absurd h (by simp)
  · rename_i hw
    split at h
    · rename_i rest hrest
      rw [Option.map_eq_some'] at h
      obtain ⟨t, ht, rfl⟩ := h
      exact ⟨cs.takeWhile isWordChar, t, rfl,
        by simpa [List.isEmpty_iff] using hw,
        List.all_takeWhile, matchDayTail_sound ht⟩
    · exact absurd h (by simp)

theorem matchP1At_sound {cs g : List Char} (h : matchP1At cs = some g) :
    P3Shape g := by
  unfold matchP1At at h
  split at h
  · exact matchP3At_sound h
  · exact absurd h (by simp)

theorem matchISOAt_sound {cs g : List Char} (h : matchISOAt cs = some g) :
    ISOShape g := by
  unfold matchISOAt at h
  split at h
  · rename_i a b c d e f g' h' rest
    split at h
    · rename_i hd
      injection h with hinj
      subst hinj
      simp only [Bool.and_eq_true] at hd
      obtain ⟨⟨⟨⟨⟨⟨⟨h1, h2⟩, h3⟩, h4⟩, h5⟩, h6⟩, h7⟩, h8⟩ := hd
      exact ⟨[a, b, c, d], [e, f], [g', h'], by simp, rfl, rfl, rfl,
        by simp [h1, h2, h3, h4], by simp [h5, h6], by simp [h7, h8]⟩
    · exact absurd h (by simp)
  · exact absurd h (by simp)

theorem matchP2At_sound {cs g : List Char} (h : matchP2At cs = some g) :
    ISOShape g := by
  unfold matchP2At at h
  split at h
  · exact matchISOAt_sound h
  · exact absurd h (by simp)

theorem reSearch_sound {m : List Char → Option (List Char)}
    {Q : List Char → Prop} (hm : ∀ cs g, m cs = some g → Q g) :
    ∀ cs g, reSearch m cs = some g → Q g := by
  intro cs
  induction cs with
  | nil => exact fun g h => hm [] g h
  | cons c t ih =>
    intro g h
    unfold reSearch at h
    cases hm0 : m (c :: t) with
    | some g0 =>
      rw [hm0] at h
      injection h with h'
      exact h' ▸ hm (c :: t) g0 hm0
    | none =>
      rw [hm0] at h
      exact ih g h

/-- **C9** (amended).  The meeting date is produced by exactly one of four
outcomes, tried in order: the capture of the labeled pattern
`Date:` + `Month D, YYYY` shape; else the capture of the labeled ISO pattern
(ISO-shaped); else the capture of the bare pattern anywhere in the
transcript; else today's date.  Every capture of the bare pattern (and of the
first pattern's group) is a nonempty word-character token followed by a
space, a 1–2 digit day, an optional comma, whitespace and a 4-digit year —
the token may be any `\w+` run (digits and underscores included), not only a
month name. -/
theorem c9_meeting_date_cascade (today t : String) :
    (∀ g, reSearch matchP3At t.data = some g → P3Shape g) ∧
    (∀ g, reSearch matchP1At t.data = some g →
      extract_meeting_date today t = String.mk g ∧ P3Shape g) ∧
    (∀ g, reSearch matchP1At t.data = none →
      reSearch matchP2At t.data = some g →
      extract_meeting_date today t = String.mk g ∧ ISOShape g) ∧
    (∀ g, reSearch matchP1At t.data = none →
      reSearch matchP2At t.data = none →
      reSearch matchP3At t.data = some g →
      extract_meeting_date today t = String.mk g) ∧
    (reSearch matchP1At t.data = none →
      reSearch matchP2At t.data = none →
      reSearch matchP3At t.data = none →
      extract_meeting_date today t = today) := by
  refine ⟨fun g h => reSearch_sound (fun _ _ hg => matchP3At_sound hg) t.data g h,
    ?_, ?_, ?_, ?_⟩
  · intro g h
    refine ⟨?_, reSearch_sound (fun _ _ hg => matchP1At_sound hg) t.data g h⟩
    unfold extract_meeting_date
    rw [h]
  · intro g h1 h2
    refine ⟨?_, reSearch_sound (fun _ _ hg => matchP2At_sound hg) t.data g h2⟩
    unfold extract_meeting_date
    rw [h1, h2]
  · intro g h1 h2 h3
    unfold extract_meeting_date
    rw [h1, h2, h3]
  · intro h1 h2 h3
    unfold extract_meeting_date
    rw [h1, h2, h3]

/-- Witness for C9: on a transcript with a labeled `Date:` field the first
pattern matches, the cascade returns its capture, and the capture has the
proved shape. -/
theorem c9_witness :
    reSearch matchP1At ("Date: May 5, 2025".data) = some ("May 5, 2025".data) ∧
    extract_meeting_date "2026-10-12" "Date: May 5, 2025" = "May 5, 2025" ∧
    P3Shape ("May 5, 2025".data) :=
  ⟨by decide,
    ((c9_meeting_date_cascade "2026-10-12" "Date: May 5, 2025").2.1
      ("May 5, 2025".data) (by decide)).1,
    ((c9_meeting_date_cascade "2026-10-12" "Date: May 5, 2025").2.1
      ("May 5, 2025".data) (by decide)).2⟩

/-- **C9 counterexample.**  The bare pattern's `\w+` also matches digit
tokens: on this transcript the third pattern captures `77 8, 2024`, whose
leading word token `77` contains no letter, and `_extract_meeting_date`
returns that capture.  This refutes the claim's conjunct that the bare
pattern matches only month-name-shaped substrings. -/
theorem c9_counterexample :
    extract_meeting_date "2026-10-12" "Reviewed on 77 8, 2024 ok" = "77 8, 2024" ∧
    reSearch matchP3At ("Reviewed on 77 8, 2024 ok".data)
        = some ("77 8, 2024".data) ∧
    ("77 8, 2024".data.takeWhile isWordChar).all Char.isAlpha = false :=
  ⟨by decide, by decide, by decide⟩

end HuddleAI
